import Mathlib

/-!
Host-side dispatch of the catlass basic matmul kernel.

A shallow embedding of `csrc/catlass/op_host/catlass_matmul_basic.cpp`:
the mode resolver `GetModeVal`, the tiling builder `get_tiling` and the
launch dispatcher `catlass_matmul_basic`.

* Machine integers are mathematical integers with explicit wrap-around
  (`toInt32`, `toUInt32`, `toUInt64`).
* `TORCH_CHECK` failures are values of `Except TorchError`.
* The external collaborators (platform query, host allocation, host to
  device copy, device allocation, kernel launch) are recorded in an
  explicit trace of effects that is threaded through the functions.
  They are modelled as succeeding: allocation and transfer failures of the
  runtime are outside the embedding.
-/

namespace sglang
namespace npu_kernel

/-! ## Machine integers -/

/-- Conversion of an integer to `int32_t` (two's complement narrowing). -/
def toInt32 (x : Int) : Int := (x + 2147483648) % 4294967296 - 2147483648

/-- Conversion of an integer to `uint32_t`. -/
def toUInt32 (x : Int) : Int := x % 4294967296

/-- Conversion of an integer to `size_t` / `uint64_t`. -/
def toUInt64 (x : Int) : Int := x % 18446744073709551616

/-! ## Tensor handles (external type): only the metadata read by the host code -/

/-- Element types of `c10::ScalarType`. -/
inductive ScalarType where
  | Byte | Char | Short | Int | Long | Half | Float | Double
  | ComplexHalf | ComplexFloat | ComplexDouble | Bool
  | QInt8 | QUInt8 | QInt32 | BFloat16
  | Float8_e5m2 | Float8_e4m3fn | UInt16 | UInt32 | UInt64 | Undefined
  deriving DecidableEq

/-- Owning device of a tensor. -/
inductive Device where
  | cpu
  | npu (index : Nat)
  deriving DecidableEq

/-- Metadata of an `at::Tensor`: element type, 64-bit dimension sizes, device. -/
structure Tensor where
  scalar_type : ScalarType
  sizes : List Int
  device : Device
  deriving DecidableEq

/-! ## Errors -/

/-- Failures raised by the host code.  The first five are the `TORCH_CHECK`s of
this file; `IndexError` is raised by `Tensor::size` for a dimension the tensor
does not have. -/
inductive TorchError where
  | TypeMismatch
  | UnsupportedType
  | UnsupportedMode (msg : String)
  | UnsupportedWeightFormat
  | ShapeMismatch
  | IndexError
  deriving DecidableEq

/-- Message carried by the error. -/
def TorchError.what : TorchError → String
  | .TypeMismatch => "tensor type is not the same"
  | .UnsupportedType => "tensor type only support half / bf16 / fp32"
  | .UnsupportedMode msg => msg
  | .UnsupportedWeightFormat => "current ops only support weightFormat ND"
  | .ShapeMismatch => "input k dim shape mismatch"
  | .IndexError => "Dimension out of range"

/-- Models `at::Tensor::size(d)` for a non-negative dimension index `d`. -/
def Tensor.size (t : Tensor) (d : Nat) : Except TorchError Int :=
  match t.sizes.get? d with
  | some v => .ok v
  | none => .error .IndexError

/-! ## Declarations of `catlass_matmul_tiling.h` and of the platform -/

/-- Modelled from the spec: the enumerator `WeightFormatMode::WEIGHT_ND` of
`catlass_matmul_tiling.h` (the header is not part of the sources); the spec
gives the weight format strings as "ND" → 0, "NZ" → 1. -/
def WEIGHT_ND : Nat := 0

/-- Modelled from the spec: the enumerator `WeightFormatMode::WEIGHT_NZ` of
`catlass_matmul_tiling.h`; the spec gives "NZ" → 1. -/
def WEIGHT_NZ : Nat := 1

/-- The quantities the host code takes from declarations outside this file:
the enumerators of `DataFormatMode`, the size of the tiling record, and the
number of vector cores the platform manager reports. -/
structure Env where
  FP16 : Int
  BF16 : Int
  FP32 : Int
  sizeofTilingData : Nat
  coreNumAiv : Nat
  deriving DecidableEq

/-- Modelled from the spec: the record `KernelCatlassMatmulTilingData` of
`catlass_matmul_tiling.h` (the header is not part of the sources); the spec
lists the fields m, n, k (signed 32-bit) and the two 64-bit mode codes. -/
structure KernelCatlassMatmulTilingData where
  m : Int
  n : Int
  k : Int
  weight_format_mode : Int
  data_format_mode : Int
  deriving DecidableEq

/-- A byte tensor of `size` bytes whose leading bytes hold the tiling record. -/
structure TilingBuffer where
  size : Int
  data : KernelCatlassMatmulTilingData
  deriving DecidableEq

/-! ## External effects -/

/-- The scratch tensor handed to the kernel: a byte tensor on a device. -/
structure Workspace where
  bytes : Int
  device : Device
  deriving DecidableEq

/-- The calls into the external collaborators, in the order they are made. -/
inductive Effect where
  | platformQuery
  | hostAlloc (bytes : Int)
  | hostToDevice (buf : TilingBuffer)
  | workspaceAlloc (ws : Workspace)
  | kernelLaunch (blockDim : Int) (a b c : Tensor) (ws : Workspace) (tiling : TilingBuffer)
  deriving DecidableEq

/-- The effects performed so far, oldest first. -/
abbrev Trace := List Effect

/-- Is the effect a kernel invocation? -/
def Effect.isLaunch : Effect → Bool
  | .kernelLaunch _ _ _ _ _ _ => true
  | _ => false

/-- Number of kernel invocations recorded in a trace. -/
def launchCount (tr : Trace) : Nat := tr.countP Effect.isLaunch

/-! ## The translated code -/

/-- The constant `PADDING_BYTE` (`32U`). -/
def PADDING_BYTE : Int := 32

/-- The global `dTypeMap`. -/
def dTypeMap (env : Env) : List (ScalarType × Int) :=
  [(.Half, env.FP16), (.BFloat16, env.BF16), (.Float, env.FP32)]

/-- The global `weightFormatMap`. -/
def weightFormatMap : List (String × Nat) :=
  [("ND", WEIGHT_ND), ("NZ", WEIGHT_NZ)]

/-- The member `find` of the map types: the value stored under `key`, if any. -/
def mapFind {κ ν : Type} [DecidableEq κ] (key : κ) : List (κ × ν) → Option ν
  | [] => none
  | (k, v) :: rest => if k = key then some v else mapFind key rest

/-- The expression `dTypeMap[aType]`: the stored value, a value-initialised one
for a key that is not in the map. -/
def dTypeMapIndex (env : Env) (aType : ScalarType) : Int :=
  match mapFind aType (dTypeMap env) with
  | some v => v
  | none => 0

/-- The template `GetModeVal`. -/
def GetModeVal (mode_map : List (String × Nat)) (mode_opt : Option String)
    (default_mode : String) (mode_name : String) : Except TorchError Int :=
  let modeStr := mode_name
  let mode_str := mode_opt.getD default_mode
  match mapFind mode_str mode_map with
  | none => .error (.UnsupportedMode (modeStr ++ (": Unsupported mode value " ++ mode_str)))
  | some v => .ok (v : Int)

/-- The padded size `tiling_size` computed in `get_tiling` for a record of
`sizeofTilingData` bytes: unsigned 64-bit arithmetic, stored in an `int32_t`. -/
def tiling_size (sizeofTilingData : Nat) : Int :=
  toInt32 (toUInt64
    (toUInt64 (toUInt64 (toUInt64 ((sizeofTilingData : Int) + PADDING_BYTE) - 1) / PADDING_BYTE)
      * PADDING_BYTE))

/-- The function `get_tiling`: returns the staged tiling tensor and `blockDim`. -/
def get_tiling (env : Env) (m n k : Int) (weight_format_mode data_format_mode : Int)
    (tr : Trace) : (TilingBuffer × Int) × Trace :=
  let tr := tr ++ [Effect.platformQuery]
  let blockDim := toUInt32 (env.coreNumAiv : Int)
  let tiling_size := tiling_size env.sizeofTilingData
  let tr := tr ++ [Effect.hostAlloc tiling_size]
  let tiling_buffer : TilingBuffer :=
    { size := tiling_size,
      data := { m := m, n := n, k := k,
                weight_format_mode := weight_format_mode,
                data_format_mode := data_format_mode } }
  let tr := tr ++ [Effect.hostToDevice tiling_buffer]
  ((tiling_buffer, blockDim), tr)

/-- The entry point `catlass_matmul_basic`. -/
def catlass_matmul_basic (env : Env) (input_a input_b output_c : Tensor)
    (format_mode : Option String) (tr : Trace) : Except TorchError Unit × Trace :=
  let aType := input_a.scalar_type
  let bType := input_b.scalar_type
  let cType := output_c.scalar_type
  if ¬ (aType = bType ∧ bType = cType) then (.error .TypeMismatch, tr)
  else if ¬ (aType = .BFloat16 ∨ aType = .Half ∨ aType = .Float) then
    (.error .UnsupportedType, tr)
  else
    match GetModeVal weightFormatMap format_mode "ND" "format_mode" with
    | .error e => (.error e, tr)
    | .ok formatMode =>
      if ¬ (formatMode = (WEIGHT_ND : Int)) then (.error .UnsupportedWeightFormat, tr)
      else
        match input_a.size 0 with
        | .error e => (.error e, tr)
        | .ok a0 =>
          let m := toInt32 a0
          match input_a.size 1 with
          | .error e => (.error e, tr)
          | .ok a1 =>
            let k := toInt32 a1
            match input_b.size 1 with
            | .error e => (.error e, tr)
            | .ok b1 =>
              let n := toInt32 b1
              match input_b.size 0 with
              | .error e => (.error e, tr)
              | .ok b0 =>
                if ¬ (b0 = k) then (.error .ShapeMismatch, tr)
                else
                  match get_tiling env m n k formatMode (dTypeMapIndex env aType) tr with
                  | ((tiling_tensor, blockDim), tr) =>
                    let workspace_tensor : Workspace := { bytes := 1, device := input_a.device }
                    let tr := tr ++ [Effect.workspaceAlloc workspace_tensor]
                    let tr := tr ++ [Effect.kernelLaunch blockDim input_a input_b output_c
                                      workspace_tensor tiling_tensor]
                    (.ok (), tr)

/-! ## Sample inputs -/

/-- A tensor on the first device. -/
def mkTensor (ty : ScalarType) (sizes : List Int) : Tensor :=
  { scalar_type := ty, sizes := sizes, device := .npu 0 }

/-- A sample configuration: 32-byte record, 40 vector cores. -/
def sampleEnv : Env :=
  { FP16 := 0, BF16 := 1, FP32 := 2, sizeofTilingData := 32, coreNumAiv := 40 }

/-! ## Auxiliary facts -/

theorem toInt32_of_fits (x : Int) (h : -2147483648 ≤ x ∧ x < 2147483648) : toInt32 x = x := by
  unfold toInt32
  omega

theorem toUInt32_of_fits (x : Nat) (h : x < 4294967296) : toUInt32 (x : Int) = x := by
  unfold toUInt32
  omega

theorem GetModeVal_default_ND (fmt : Option String) (h : fmt = none ∨ fmt = some "ND") :
    GetModeVal weightFormatMap fmt "ND" "format_mode" = .ok 0 := by
  rcases h with h | h <;> subst h <;> rfl

/-- The trace `get_tiling` leaves behind: platform query, allocation, copy. -/
theorem get_tiling_trace (env : Env) (m n k w d : Int) (tr : Trace) :
    (get_tiling env m n k w d tr).2 =
      tr ++ [Effect.platformQuery, Effect.hostAlloc (tiling_size env.sizeofTilingData),
             Effect.hostToDevice (get_tiling env m n k w d tr).1.1] := by
  simp [get_tiling]

/-- A call that passes the five checks performs the five effects in order. -/
theorem catlass_matmul_basic_launch (env : Env) (a b c : Tensor) (fmt : Option String)
    (tr : Trace) (a0 a1 b0 b1 : Int)
    (hab : a.scalar_type = b.scalar_type) (hbc : b.scalar_type = c.scalar_type)
    (hs : a.scalar_type = .Half ∨ a.scalar_type = .BFloat16 ∨ a.scalar_type = .Float)
    (hmode : GetModeVal weightFormatMap fmt "ND" "format_mode" = .ok 0)
    (ha0 : a.size 0 = .ok a0) (ha1 : a.size 1 = .ok a1)
    (hb1 : b.size 1 = .ok b1) (hb0 : b.size 0 = .ok b0)
    (hk : b0 = toInt32 a1) :
    catlass_matmul_basic env a b c fmt tr =
      (.ok (),
        tr ++ [Effect.platformQuery, Effect.hostAlloc (tiling_size env.sizeofTilingData),
          Effect.hostToDevice
            { size := tiling_size env.sizeofTilingData,
              data := { m := toInt32 a0, n := toInt32 b1, k := toInt32 a1,
                        weight_format_mode := 0,
                        data_format_mode := dTypeMapIndex env a.scalar_type } },
          Effect.workspaceAlloc { bytes := 1, device := a.device },
          Effect.kernelLaunch (toUInt32 (env.coreNumAiv : Int)) a b c
            { bytes := 1, device := a.device }
            { size := tiling_size env.sizeofTilingData,
              data := { m := toInt32 a0, n := toInt32 b1, k := toInt32 a1,
                        weight_format_mode := 0,
                        data_format_mode := dTypeMapIndex env a.scalar_type } }]) := by
  have hs2 : a.scalar_type = .BFloat16 ∨ a.scalar_type = .Half ∨ a.scalar_type = .Float := by
    tauto
  have hs3 : b.scalar_type = .BFloat16 ∨ b.scalar_type = .Half ∨ b.scalar_type = .Float := by
    rw [← hab]; exact hs2
  have hs4 : c.scalar_type = .BFloat16 ∨ c.scalar_type = .Half ∨ c.scalar_type = .Float := by
    rw [← hbc]; exact hs3
  unfold catlass_matmul_basic
  simp [hab, hbc, hs4, hmode, WEIGHT_ND, ha0, ha1, hb1, hb0, hk, get_tiling]

/-- A call whose element types are valid and whose format is the default fails
with `ShapeMismatch` when the row count of B is not the narrowed column count of A. -/
theorem catlass_matmul_basic_shape_error (env : Env) (a b c : Tensor) (fmt : Option String)
    (tr : Trace) (a0 a1 b0 b1 : Int)
    (hab : a.scalar_type = b.scalar_type) (hbc : b.scalar_type = c.scalar_type)
    (hs : a.scalar_type = .Half ∨ a.scalar_type = .BFloat16 ∨ a.scalar_type = .Float)
    (hmode : GetModeVal weightFormatMap fmt "ND" "format_mode" = .ok 0)
    (ha0 : a.size 0 = .ok a0) (ha1 : a.size 1 = .ok a1)
    (hb1 : b.size 1 = .ok b1) (hb0 : b.size 0 = .ok b0)
    (hk : b0 ≠ toInt32 a1) :
    catlass_matmul_basic env a b c fmt tr = (.error .ShapeMismatch, tr) := by
  have hs2 : a.scalar_type = .BFloat16 ∨ a.scalar_type = .Half ∨ a.scalar_type = .Float := by
    tauto
  have hs3 : b.scalar_type = .BFloat16 ∨ b.scalar_type = .Half ∨ b.scalar_type = .Float := by
    rw [← hab]; exact hs2
  have hs4 : c.scalar_type = .BFloat16 ∨ c.scalar_type = .Half ∨ c.scalar_type = .Float := by
    rw [← hbc]; exact hs3
  unfold catlass_matmul_basic
  simp [hab, hbc, hs4, hmode, WEIGHT_ND, ha0, ha1, hb1, hb0, hk]

/-- Every call either fails with the trace untouched, or has passed the five checks. -/
theorem catlass_matmul_basic_cases (env : Env) (a b c : Tensor) (fmt : Option String)
    (tr : Trace) :
    (∃ e, catlass_matmul_basic env a b c fmt tr = (.error e, tr)) ∨
    (a.scalar_type = b.scalar_type ∧ b.scalar_type = c.scalar_type ∧
      (a.scalar_type = .Half ∨ a.scalar_type = .BFloat16 ∨ a.scalar_type = .Float) ∧
      GetModeVal weightFormatMap fmt "ND" "format_mode" = .ok 0 ∧
      ∃ a0 a1 b0 b1, a.size 0 = .ok a0 ∧ a.size 1 = .ok a1 ∧ b.size 1 = .ok b1 ∧
        b.size 0 = .ok b0 ∧ b0 = toInt32 a1) := by
  by_cases hty : a.scalar_type = b.scalar_type ∧ b.scalar_type = c.scalar_type
  swap
  · exact Or.inl ⟨.TypeMismatch, by
      unfold catlass_matmul_basic
      simp only [hty, not_false_eq_true, if_true]⟩
  obtain ⟨hab, hbc⟩ := hty
  by_cases hs : c.scalar_type = .BFloat16 ∨ c.scalar_type = .Half ∨ c.scalar_type = .Float
  swap
  · exact Or.inl ⟨.UnsupportedType, by
      unfold catlass_matmul_basic
      simp [hab, hbc, hs]⟩
  cases hm : GetModeVal weightFormatMap fmt "ND" "format_mode" with
  | error e =>
    exact Or.inl ⟨e, by
      unfold catlass_matmul_basic
      simp [hab, hbc, hs, hm]⟩
  | ok v =>
    by_cases hv : v = (WEIGHT_ND : Int)
    swap
    · exact Or.inl ⟨.UnsupportedWeightFormat, by
        unfold catlass_matmul_basic
        simp [hab, hbc, hs, hm, hv]⟩
    cases ha0 : a.size 0 with
    | error e =>
      exact Or.inl ⟨e, by
        unfold catlass_matmul_basic
        simp [hab, hbc, hs, hm, hv, ha0]⟩
    | ok a0 =>
      cases ha1 : a.size 1 with
      | error e =>
        exact Or.inl ⟨e, by
          unfold catlass_matmul_basic
          simp [hab, hbc, hs, hm, hv, ha0, ha1]⟩
      | ok a1 =>
        cases hb1 : b.size 1 with
        | error e =>
          exact Or.inl ⟨e, by
            unfold catlass_matmul_basic
            simp [hab, hbc, hs, hm, hv, ha0, ha1, hb1]⟩
        | ok b1 =>
          cases hb0 : b.size 0 with
          | error e =>
            exact Or.inl ⟨e, by
              unfold catlass_matmul_basic
              simp [hab, hbc, hs, hm, hv, ha0, ha1, hb1, hb0]⟩
          | ok b0 =>
            by_cases hk : b0 = toInt32 a1
            · refine Or.inr ⟨hab, hbc, ?_, ?_, a0, a1, b0, b1, rfl, rfl, rfl, rfl, hk⟩
              · rw [hab, hbc]; tauto
              · rw [hv]; rfl
            · exact Or.inl ⟨.ShapeMismatch, by
                unfold catlass_matmul_basic
                simp [hab, hbc, hs, hm, hv, ha0, ha1, hb1, hb0, hk]⟩

theorem size_zero_of_sizes (t : Tensor) (x y : Int) (h : t.sizes = [x, y]) :
    t.size 0 = .ok x := by
  simp [Tensor.size, h]

theorem size_one_of_sizes (t : Tensor) (x y : Int) (h : t.sizes = [x, y]) :
    t.size 1 = .ok y := by
  simp [Tensor.size, h]

/-! ## C1: success on compatible shapes -/

/-- C1, as stated, fails: A of shape 1×2147483648 and B of shape 2147483648×1
(C of shape 1×1, all FP16, no format token) have compatible shapes, yet the call
ends in `ShapeMismatch` and launches nothing. -/
theorem compatible_shapes_rejected_at_2pow31 :
    (mkTensor .Half [1, 2147483648]).sizes = [1, 2147483648] ∧
    (mkTensor .Half [2147483648, 1]).sizes = [2147483648, 1] ∧
    (mkTensor .Half [1, 1]).sizes = [1, 1] ∧
    catlass_matmul_basic sampleEnv (mkTensor .Half [1, 2147483648])
      (mkTensor .Half [2147483648, 1]) (mkTensor .Half [1, 1]) none []
      = (.error .ShapeMismatch, []) :=
  ⟨rfl, rfl, rfl, rfl⟩

/-- C1, amended: for operands of one supported element type, A of shape m×k, B of
shape k×n, C of shape m×n, with k in the signed 32-bit range and the format token
absent or "ND", the call returns without error and issues exactly one kernel
invocation, the last effect of the call, whose launch width is the core count
reported by the platform (a `uint32_t`). -/
theorem matmul_succeeds_with_one_launch (env : Env) (a b c : Tensor) (fmt : Option String)
    (tr : Trace) (m k n : Int)
    (hab : a.scalar_type = b.scalar_type) (hbc : b.scalar_type = c.scalar_type)
    (hs : a.scalar_type = .Half ∨ a.scalar_type = .BFloat16 ∨ a.scalar_type = .Float)
    (hfmt : fmt = none ∨ fmt = some "ND")
    (ha : a.sizes = [m, k]) (hb : b.sizes = [k, n]) (_hc : c.sizes = [m, n])
    (hk : -2147483648 ≤ k ∧ k < 2147483648)
    (hcore : env.coreNumAiv < 4294967296) :
    (catlass_matmul_basic env a b c fmt tr).1 = .ok () ∧
    launchCount (catlass_matmul_basic env a b c fmt tr).2 = launchCount tr + 1 ∧
    ∃ pre ws tiling,
      (catlass_matmul_basic env a b c fmt tr).2
        = tr ++ pre ++ [Effect.kernelLaunch (env.coreNumAiv : Int) a b c ws tiling] ∧
      launchCount pre = 0 := by
  have h := catlass_matmul_basic_launch env a b c fmt tr m k k n hab hbc hs
    (GetModeVal_default_ND fmt hfmt)
    (size_zero_of_sizes a m k ha) (size_one_of_sizes a m k ha)
    (size_one_of_sizes b k n hb) (size_zero_of_sizes b k n hb)
    (toInt32_of_fits k hk).symm
  rw [h, toUInt32_of_fits _ hcore]
  refine ⟨rfl, ?_, ?_⟩
  · simp [launchCount, List.countP_append, List.countP_cons, Effect.isLaunch]
  · refine ⟨[Effect.platformQuery, Effect.hostAlloc (tiling_size env.sizeofTilingData),
        Effect.hostToDevice
          { size := tiling_size env.sizeofTilingData,
            data := { m := toInt32 m, n := toInt32 n, k := toInt32 k,
                      weight_format_mode := 0,
                      data_format_mode := dTypeMapIndex env a.scalar_type } },
        Effect.workspaceAlloc { bytes := 1, device := a.device }],
        { bytes := 1, device := a.device },
        { size := tiling_size env.sizeofTilingData,
          data := { m := toInt32 m, n := toInt32 n, k := toInt32 k,
                    weight_format_mode := 0,
                    data_format_mode := dTypeMapIndex env a.scalar_type } }, ?_, ?_⟩
    · simp
    · simp [launchCount, List.countP_cons, Effect.isLaunch]

/-- The amended C1 at FP16 operands of shapes 2×3, 3×4, 2×4. -/
theorem matmul_succeeds_with_one_launch_witness :
    (catlass_matmul_basic sampleEnv (mkTensor .Half [2, 3]) (mkTensor .Half [3, 4])
      (mkTensor .Half [2, 4]) none []).1 = .ok () ∧
    launchCount (catlass_matmul_basic sampleEnv (mkTensor .Half [2, 3]) (mkTensor .Half [3, 4])
      (mkTensor .Half [2, 4]) none []).2 = launchCount [] + 1 ∧
    ∃ pre ws tiling,
      (catlass_matmul_basic sampleEnv (mkTensor .Half [2, 3]) (mkTensor .Half [3, 4])
          (mkTensor .Half [2, 4]) none []).2
        = [] ++ pre ++ [Effect.kernelLaunch (sampleEnv.coreNumAiv : Int) (mkTensor .Half [2, 3])
            (mkTensor .Half [3, 4]) (mkTensor .Half [2, 4]) ws tiling] ∧
      launchCount pre = 0 :=
  matmul_succeeds_with_one_launch sampleEnv (mkTensor .Half [2, 3]) (mkTensor .Half [3, 4])
    (mkTensor .Half [2, 4]) none [] 2 3 4 rfl rfl (Or.inl rfl) (Or.inl rfl) rfl rfl rfl
    (by decide) (by decide)

/-! ## C2: element types that differ -/

/-- C2: when the element type of A differs from that of B or of C, the call fails
with `TypeMismatch` ("tensor type is not the same") whatever the format token and
the shapes are, and the trace is untouched; `get_tiling` always extends the trace
(by a platform query, an allocation and a host to device copy), so it was not called. -/
theorem type_mismatch_before_tiling (env : Env) (a b c : Tensor) (fmt : Option String)
    (tr : Trace)
    (h : a.scalar_type ≠ b.scalar_type ∨ a.scalar_type ≠ c.scalar_type) :
    catlass_matmul_basic env a b c fmt tr = (.error .TypeMismatch, tr) ∧
    TorchError.what .TypeMismatch = "tensor type is not the same" ∧
    ∀ m n k w d : Int,
      Effect.platformQuery ∈ (get_tiling env m n k w d tr).2.drop tr.length ∧
      (∃ buf, Effect.hostToDevice buf ∈ (get_tiling env m n k w d tr).2.drop tr.length) ∧
      (get_tiling env m n k w d tr).2 ≠ tr := by
  refine ⟨?_, rfl, ?_⟩
  · have hne : ¬ (a.scalar_type = b.scalar_type ∧ b.scalar_type = c.scalar_type) := by
      rintro ⟨h1, h2⟩
      rcases h with h | h
      · exact h h1
      · exact h (h1.trans h2)
    unfold catlass_matmul_basic
    simp only [hne, not_false_eq_true, if_true]
  · intro m n k w d
    rw [get_tiling_trace]
    refine ⟨by simp, ⟨(get_tiling env m n k w d tr).1.1, by simp⟩, ?_⟩
    intro hEq
    have := congrArg List.length hEq
    simp at this

/-- C2 at an FP16 A against an FP32 B. -/
theorem type_mismatch_before_tiling_witness :
    catlass_matmul_basic sampleEnv (mkTensor .Half [2, 3]) (mkTensor .Float [3, 4])
        (mkTensor .Half [2, 4]) (some "NZ") [] = (.error .TypeMismatch, []) ∧
    TorchError.what .TypeMismatch = "tensor type is not the same" ∧
    ∀ m n k w d : Int,
      Effect.platformQuery ∈ (get_tiling sampleEnv m n k w d []).2.drop ([] : Trace).length ∧
      (∃ buf, Effect.hostToDevice buf
        ∈ (get_tiling sampleEnv m n k w d []).2.drop ([] : Trace).length) ∧
      (get_tiling sampleEnv m n k w d []).2 ≠ [] :=
  type_mismatch_before_tiling sampleEnv (mkTensor .Half [2, 3]) (mkTensor .Float [3, 4])
    (mkTensor .Half [2, 4]) (some "NZ") [] (Or.inl (by decide))

/-! ## C3: an element type outside the supported set -/

/-- C3: when A, B and C share one element type and it is none of Half, BFloat16,
Float, the call fails with `UnsupportedType` ("tensor type only support half /
bf16 / fp32"), whatever the format token and the shapes are. -/
theorem unsupported_type_rejected (env : Env) (a b c : Tensor) (fmt : Option String)
    (tr : Trace)
    (hab : a.scalar_type = b.scalar_type) (hbc : b.scalar_type = c.scalar_type)
    (hns : a.scalar_type ≠ .Half ∧ a.scalar_type ≠ .BFloat16 ∧ a.scalar_type ≠ .Float) :
    catlass_matmul_basic env a b c fmt tr = (.error .UnsupportedType, tr) ∧
    TorchError.what .UnsupportedType = "tensor type only support half / bf16 / fp32" := by
  refine ⟨?_, rfl⟩
  have hc : c.scalar_type ≠ .Half ∧ c.scalar_type ≠ .BFloat16 ∧ c.scalar_type ≠ .Float := by
    rw [← hbc, ← hab]; exact hns
  unfold catlass_matmul_basic
  simp [hab, hbc, hc.1, hc.2.1, hc.2.2]

/-- C3 at three tensors of type Double. -/
theorem unsupported_type_rejected_witness :
    catlass_matmul_basic sampleEnv (mkTensor .Double [2, 3]) (mkTensor .Double [3, 4])
        (mkTensor .Double [2, 4]) none [] = (.error .UnsupportedType, []) ∧
    TorchError.what .UnsupportedType = "tensor type only support half / bf16 / fp32" :=
  unsupported_type_rejected sampleEnv (mkTensor .Double [2, 3]) (mkTensor .Double [3, 4])
    (mkTensor .Double [2, 4]) none [] rfl rfl (by decide)

/-! ## C4: the token "NZ" is resolved and then rejected -/

/-- C4: for operands of one supported element type and whatever shapes, the token
"NZ" is resolved to code 1 and the call then fails with `UnsupportedWeightFormat`
("current ops only support weightFormat ND"), not with `UnsupportedMode`; every
token that resolves to a code other than ND (code 0) is rejected in that way. -/
theorem nz_resolved_then_rejected (env : Env) (a b c : Tensor) (tr : Trace)
    (hab : a.scalar_type = b.scalar_type) (hbc : b.scalar_type = c.scalar_type)
    (hs : a.scalar_type = .Half ∨ a.scalar_type = .BFloat16 ∨ a.scalar_type = .Float) :
    catlass_matmul_basic env a b c (some "NZ") tr = (.error .UnsupportedWeightFormat, tr) ∧
    TorchError.what .UnsupportedWeightFormat = "current ops only support weightFormat ND" ∧
    GetModeVal weightFormatMap (some "NZ") "ND" "format_mode" = .ok 1 ∧
    (WEIGHT_NZ : Int) = 1 ∧ (WEIGHT_ND : Int) = 0 ∧
    (∀ msg, (catlass_matmul_basic env a b c (some "NZ") tr).1 ≠ .error (.UnsupportedMode msg)) ∧
    (∀ fmt code, GetModeVal weightFormatMap fmt "ND" "format_mode" = .ok code →
      code ≠ (WEIGHT_ND : Int) →
      catlass_matmul_basic env a b c fmt tr = (.error .UnsupportedWeightFormat, tr)) := by
  have hs4 : c.scalar_type = .BFloat16 ∨ c.scalar_type = .Half ∨ c.scalar_type = .Float := by
    rw [← hbc, ← hab]; tauto
  have hgen : ∀ fmt code, GetModeVal weightFormatMap fmt "ND" "format_mode" = .ok code →
      code ≠ (WEIGHT_ND : Int) →
      catlass_matmul_basic env a b c fmt tr = (.error .UnsupportedWeightFormat, tr) := by
    intro fmt code hres hne
    unfold catlass_matmul_basic
    simp [hab, hbc, hs4, hres, hne]
  have hnz : catlass_matmul_basic env a b c (some "NZ") tr
      = (.error .UnsupportedWeightFormat, tr) :=
    hgen (some "NZ") 1 rfl (by decide)
  refine ⟨hnz, rfl, rfl, rfl, rfl, ?_, hgen⟩
  intro msg
  rw [hnz]
  simp

/-- C4 at FP32 operands of shapes 2×3, 3×4, 2×4. -/
theorem nz_resolved_then_rejected_witness :
    catlass_matmul_basic sampleEnv (mkTensor .Float [2, 3]) (mkTensor .Float [3, 4])
      (mkTensor .Float [2, 4]) (some "NZ") [] = (.error .UnsupportedWeightFormat, []) :=
  (nz_resolved_then_rejected sampleEnv (mkTensor .Float [2, 3]) (mkTensor .Float [3, 4])
    (mkTensor .Float [2, 4]) [] rfl rfl (Or.inr (Or.inr rfl))).1

/-! ## C5: the mode resolver -/

/-- C6, as stated, fails: with inner dimensions 3 and 4 the call does not end in
`ShapeMismatch` when the element types disagree (FP16 against FP32 gives
`TypeMismatch`) or are unsupported (Double gives `UnsupportedType`). -/
theorem k_mismatch_masked_by_type_checks :
    (4 : Int) ≠ 3 ∧
    catlass_matmul_basic sampleEnv (mkTensor .Half [2, 3]) (mkTensor .Float [4, 5])
      (mkTensor .Half [2, 5]) none [] = (.error .TypeMismatch, []) ∧
    catlass_matmul_basic sampleEnv (mkTensor .Double [2, 3]) (mkTensor .Double [4, 5])
      (mkTensor .Double [2, 5]) none [] = (.error .UnsupportedType, []) ∧
    TorchError.TypeMismatch ≠ TorchError.ShapeMismatch ∧
    TorchError.UnsupportedType ≠ TorchError.ShapeMismatch :=
  ⟨by decide, rfl, rfl, by decide, by decide⟩

/-- C6, amended: for A of shape (m, k) and B of shape (k2, n) with k2 ≠ k and k in
the signed 32-bit range, the call fails with `ShapeMismatch` when the element
types are identical and supported and the format token is absent or "ND"; it
fails with `TypeMismatch` when the element types disagree and with
`UnsupportedType` when they agree on an unsupported type; in every case the call
fails and performs no effect. -/
theorem k_mismatch_outcome (env : Env) (a b c : Tensor) (fmt : Option String) (tr : Trace)
    (m k k2 n : Int) (ha : a.sizes = [m, k]) (hb : b.sizes = [k2, n]) (hne : k2 ≠ k)
    (hk : -2147483648 ≤ k ∧ k < 2147483648) :
    (a.scalar_type = b.scalar_type → b.scalar_type = c.scalar_type →
      (a.scalar_type = .Half ∨ a.scalar_type = .BFloat16 ∨ a.scalar_type = .Float) →
      (fmt = none ∨ fmt = some "ND") →
      catlass_matmul_basic env a b c fmt tr = (.error .ShapeMismatch, tr)) ∧
    ((a.scalar_type ≠ b.scalar_type ∨ a.scalar_type ≠ c.scalar_type) →
      catlass_matmul_basic env a b c fmt tr = (.error .TypeMismatch, tr)) ∧
    (a.scalar_type = b.scalar_type → b.scalar_type = c.scalar_type →
      (a.scalar_type ≠ .Half ∧ a.scalar_type ≠ .BFloat16 ∧ a.scalar_type ≠ .Float) →
      catlass_matmul_basic env a b c fmt tr = (.error .UnsupportedType, tr)) ∧
    ∃ e, catlass_matmul_basic env a b c fmt tr = (.error e, tr) := by
  have hne2 : k2 ≠ toInt32 k := by rw [toInt32_of_fits k hk]; exact hne
  refine ⟨?_, ?_, ?_, ?_⟩
  · intro hab hbc hs hfmt
    exact catlass_matmul_basic_shape_error env a b c fmt tr m k k2 n hab hbc hs
      (GetModeVal_default_ND fmt hfmt)
      (size_zero_of_sizes a m k ha) (size_one_of_sizes a m k ha)
      (size_one_of_sizes b k2 n hb) (size_zero_of_sizes b k2 n hb) hne2
  · intro h
    have hnot : ¬ (a.scalar_type = b.scalar_type ∧ b.scalar_type = c.scalar_type) := by
      rintro ⟨h1, h2⟩
      rcases h with h | h
      · exact h h1
      · exact h (h1.trans h2)
    unfold catlass_matmul_basic
    simp only [hnot, not_false_eq_true, if_true]
  · intro hab hbc hns
    have hc : c.scalar_type ≠ .Half ∧ c.scalar_type ≠ .BFloat16 ∧ c.scalar_type ≠ .Float := by
      rw [← hbc, ← hab]; exact hns
    unfold catlass_matmul_basic
    simp [hab, hbc, hc.1, hc.2.1, hc.2.2]
  · rcases catlass_matmul_basic_cases env a b c fmt tr with h | h
    · exact h
    · exfalso
      obtain ⟨_, _, _, _, a0, a1, b0, b1, _, ha1, _, hb0, hkk⟩ := h
      rw [size_one_of_sizes a m k ha] at ha1
      rw [size_zero_of_sizes b k2 n hb] at hb0
      cases ha1
      cases hb0
      exact hne2 hkk

/-- The amended C6 at FP16 operands of shapes 2×3 and 4×5. -/
theorem k_mismatch_outcome_witness :
    catlass_matmul_basic sampleEnv (mkTensor .Half [2, 3]) (mkTensor .Half [4, 5])
      (mkTensor .Half [2, 5]) (some "ND") [] = (.error .ShapeMismatch, []) :=
  (k_mismatch_outcome sampleEnv (mkTensor .Half [2, 3]) (mkTensor .Half [4, 5])
    (mkTensor .Half [2, 5]) (some "ND") [] 2 3 4 5 rfl rfl (by decide) (by decide)).1
    rfl rfl (Or.inl rfl) (Or.inr rfl)

/-! ## C7: the k-dimension check on 64-bit sizes -/

/-- C7 does not hold of the code: the row count of B is compared with the column
count of A narrowed to 32 bits.  With A of shape 2×4294967299 and B of shape
4294967299×5 the inner dimensions agree and the call fails with `ShapeMismatch`;
with the same A and B of shape 3×5 they differ and the call launches the kernel
with k = 3.  The same happens on tensors without elements: A of shape
0×4294967296 is rejected against B of shape 4294967296×0 and accepted against B
of shape 0×5. -/
theorem k_check_uses_narrowed_columns :
    catlass_matmul_basic sampleEnv (mkTensor .Half [2, 4294967299])
      (mkTensor .Half [4294967299, 5]) (mkTensor .Half [2, 5]) none []
      = (.error .ShapeMismatch, []) ∧
    (3 : Int) ≠ 4294967299 ∧
    catlass_matmul_basic sampleEnv (mkTensor .Half [2, 4294967299])
      (mkTensor .Half [3, 5]) (mkTensor .Half [2, 5]) none []
      = (.ok (),
          [Effect.platformQuery, Effect.hostAlloc 32,
           Effect.hostToDevice
             { size := 32,
               data := { m := 2, n := 5, k := 3, weight_format_mode := 0,
                         data_format_mode := 0 } },
           Effect.workspaceAlloc { bytes := 1, device := .npu 0 },
           Effect.kernelLaunch 40 (mkTensor .Half [2, 4294967299]) (mkTensor .Half [3, 5])
             (mkTensor .Half [2, 5]) { bytes := 1, device := .npu 0 }
             { size := 32,
               data := { m := 2, n := 5, k := 3, weight_format_mode := 0,
                         data_format_mode := 0 } }]) ∧
    catlass_matmul_basic sampleEnv (mkTensor .Half [0, 4294967296])
      (mkTensor .Half [4294967296, 0]) (mkTensor .Half [0, 0]) none []
      = (.error .ShapeMismatch, []) ∧
    (catlass_matmul_basic sampleEnv (mkTensor .Half [0, 4294967296])
      (mkTensor .Half [0, 5]) (mkTensor .Half [0, 5]) none []).1 = .ok () :=
  ⟨rfl, by decide, rfl, rfl, rfl⟩

/-! ## C8: the fields of the staged descriptor -/

/-- C8, as stated, fails: A of shape 4294967298×3 and B of shape 3×5 pass the
checks, and the descriptor that is staged and passed to the kernel has m = 2,
not the row count 4294967298 of A. -/
theorem staged_m_differs_from_row_count :
    catlass_matmul_basic sampleEnv (mkTensor .Half [4294967298, 3])
      (mkTensor .Half [3, 5]) (mkTensor .Half [4294967298, 5]) none []
      = (.ok (),
          [Effect.platformQuery, Effect.hostAlloc 32,
           Effect.hostToDevice
             { size := 32,
               data := { m := 2, n := 5, k := 3, weight_format_mode := 0,
                         data_format_mode := 0 } },
           Effect.workspaceAlloc { bytes := 1, device := .npu 0 },
           Effect.kernelLaunch 40 (mkTensor .Half [4294967298, 3]) (mkTensor .Half [3, 5])
             (mkTensor .Half [4294967298, 5]) { bytes := 1, device := .npu 0 }
             { size := 32,
               data := { m := 2, n := 5, k := 3, weight_format_mode := 0,
                         data_format_mode := 0 } }]) ∧
    (mkTensor .Half [4294967298, 3]).size 0 = .ok 4294967298 ∧
    (2 : Int) ≠ 4294967298 :=
  ⟨rfl, rfl, by decide⟩

/-- C8, amended: in every call that passes validation, one descriptor is staged
to the device and passed to the kernel; its m, k and n equal the row count of A,
the column count of A and the column count of B, each when that count fits in a
signed 32-bit integer; its weight_format_mode is the ND code 0 and its
data_format_mode is the code `dTypeMap` stores for the common element type
(FP16, BF16, FP32 for Half, BFloat16, Float). -/
theorem staged_descriptor_fields (env : Env) (a b c : Tensor) (fmt : Option String)
    (tr : Trace) (hok : (catlass_matmul_basic env a b c fmt tr).1 = .ok ()) :
    ∃ (a0 a1 b1 blockDim : Int) (ws : Workspace) (tiling : TilingBuffer),
      a.size 0 = .ok a0 ∧ a.size 1 = .ok a1 ∧ b.size 1 = .ok b1 ∧
      (catlass_matmul_basic env a b c fmt tr).2
        = tr ++ [Effect.platformQuery, Effect.hostAlloc tiling.size,
                 Effect.hostToDevice tiling, Effect.workspaceAlloc ws,
                 Effect.kernelLaunch blockDim a b c ws tiling] ∧
      (-2147483648 ≤ a0 ∧ a0 < 2147483648 → tiling.data.m = a0) ∧
      (-2147483648 ≤ a1 ∧ a1 < 2147483648 → tiling.data.k = a1) ∧
      (-2147483648 ≤ b1 ∧ b1 < 2147483648 → tiling.data.n = b1) ∧
      tiling.data.weight_format_mode = (WEIGHT_ND : Int) ∧ (WEIGHT_ND : Int) = 0 ∧
      (a.scalar_type, tiling.data.data_format_mode) ∈ dTypeMap env ∧
      (a.scalar_type = .Half → tiling.data.data_format_mode = env.FP16) ∧
      (a.scalar_type = .BFloat16 → tiling.data.data_format_mode = env.BF16) ∧
      (a.scalar_type = .Float → tiling.data.data_format_mode = env.FP32) := by
  rcases catlass_matmul_basic_cases env a b c fmt tr with ⟨e, he⟩ | h
  · rw [he] at hok
    cases hok
  · obtain ⟨hab, hbc, hs, hmode, a0, a1, b0, b1, ha0, ha1, hb1, hb0, hk⟩ := h
    have hrun := catlass_matmul_basic_launch env a b c fmt tr a0 a1 b0 b1 hab hbc hs hmode
      ha0 ha1 hb1 hb0 hk
    refine ⟨a0, a1, b1, toUInt32 (env.coreNumAiv : Int), { bytes := 1, device := a.device },
      { size := tiling_size env.sizeofTilingData,
        data := { m := toInt32 a0, n := toInt32 b1, k := toInt32 a1,
                  weight_format_mode := 0,
                  data_format_mode := dTypeMapIndex env a.scalar_type } },
      ha0, ha1, hb1, ?_, toInt32_of_fits a0, toInt32_of_fits a1, toInt32_of_fits b1,
      rfl, rfl, ?_, ?_, ?_, ?_⟩
    · rw [hrun]
    · rcases hs with h | h | h <;> simp [h, dTypeMapIndex, dTypeMap, mapFind]
    · intro h
      simp [h, dTypeMapIndex, dTypeMap, mapFind]
    · intro h
      simp [h, dTypeMapIndex, dTypeMap, mapFind]
    · intro h
      simp [h, dTypeMapIndex, dTypeMap, mapFind]

/-- The amended C8 at BF16 operands of shapes 2×3, 3×4, 2×4: the staged
descriptor holds m = 2, k = 3, n = 4 and the BF16 code. -/
theorem staged_descriptor_fields_witness :
    ∃ (a0 a1 b1 blockDim : Int) (ws : Workspace) (tiling : TilingBuffer),
      (mkTensor .BFloat16 [2, 3]).size 0 = .ok a0 ∧
      (mkTensor .BFloat16 [2, 3]).size 1 = .ok a1 ∧
      (mkTensor .BFloat16 [3, 4]).size 1 = .ok b1 ∧
      (catlass_matmul_basic sampleEnv (mkTensor .BFloat16 [2, 3]) (mkTensor .BFloat16 [3, 4])
          (mkTensor .BFloat16 [2, 4]) none []).2
        = [] ++ [Effect.platformQuery, Effect.hostAlloc tiling.size,
                 Effect.hostToDevice tiling, Effect.workspaceAlloc ws,
                 Effect.kernelLaunch blockDim (mkTensor .BFloat16 [2, 3])
                   (mkTensor .BFloat16 [3, 4]) (mkTensor .BFloat16 [2, 4]) ws tiling] ∧
      (-2147483648 ≤ a0 ∧ a0 < 2147483648 → tiling.data.m = a0) ∧
      (-2147483648 ≤ a1 ∧ a1 < 2147483648 → tiling.data.k = a1) ∧
      (-2147483648 ≤ b1 ∧ b1 < 2147483648 → tiling.data.n = b1) ∧
      tiling.data.weight_format_mode = (WEIGHT_ND : Int) ∧ (WEIGHT_ND : Int) = 0 ∧
      ((mkTensor .BFloat16 [2, 3]).scalar_type, tiling.data.data_format_mode)
        ∈ dTypeMap sampleEnv ∧
      ((mkTensor .BFloat16 [2, 3]).scalar_type = .Half →
        tiling.data.data_format_mode = sampleEnv.FP16) ∧
      ((mkTensor .BFloat16 [2, 3]).scalar_type = .BFloat16 →
        tiling.data.data_format_mode = sampleEnv.BF16) ∧
      ((mkTensor .BFloat16 [2, 3]).scalar_type = .Float →
        tiling.data.data_format_mode = sampleEnv.FP32) :=
  staged_descriptor_fields sampleEnv (mkTensor .BFloat16 [2, 3]) (mkTensor .BFloat16 [3, 4])
    (mkTensor .BFloat16 [2, 4]) none [] rfl

/-! ## C9: no partial success -/

/-- C10: for a record of s bytes, with s + 31 below 2^64 and the rounded size
below 2^31, the padded size computed in `get_tiling` is (s + 32 - 1) / 32 * 32,
the next multiple of 32: divisible by 32, at least s, less than s + 32, and
equal to s when s is a multiple of 32. -/
theorem tiling_size_next_multiple (s : Nat)
    (h1 : (s : Int) + 31 < 18446744073709551616)
    (h2 : ((s : Int) + 31) / 32 * 32 < 2147483648) :
    tiling_size s = ((s : Int) + 32 - 1) / 32 * 32 ∧
    (32 : Int) ∣ tiling_size s ∧
    (s : Int) ≤ tiling_size s ∧
    tiling_size s < (s : Int) + 32 ∧
    ((32 : Int) ∣ (s : Int) → tiling_size s = (s : Int)) := by
  have hval : tiling_size s = ((s : Int) + 32 - 1) / 32 * 32 := by
    unfold tiling_size toInt32 toUInt64 PADDING_BYTE
    omega
  refine ⟨hval, ?_, ?_, ?_, ?_⟩
  · rw [hval]
    exact Dvd.intro_left _ rfl
  · rw [hval]
    omega
  · rw [hval]
    omega
  · intro hd
    rw [hval]
    omega

/-- C10 at a record of 28 bytes, padded to 32. -/
theorem tiling_size_next_multiple_witness :
    tiling_size 28 = 32 ∧ (32 : Int) ∣ tiling_size 28 ∧ tiling_size 32 = 32 :=
  ⟨(tiling_size_next_multiple 28 (by decide) (by decide)).1.trans (by decide),
   (tiling_size_next_multiple 28 (by decide) (by decide)).2.1,
   (tiling_size_next_multiple 32 (by decide) (by decide)).2.2.2.2 (by decide)⟩

/-! ## C11: the output tensor is read for its element type only -/

/-- A call that fails with output C fails with the same error with any output of
the same element type. -/
theorem catlass_matmul_basic_error_same_type (env : Env) (a b c c2 : Tensor)
    (fmt : Option String) (tr : Trace) (h : c.scalar_type = c2.scalar_type) :
    (∃ e, catlass_matmul_basic env a b c fmt tr = (.error e, tr) ∧
      catlass_matmul_basic env a b c2 fmt tr = (.error e, tr)) ∨
    (a.scalar_type = b.scalar_type ∧ b.scalar_type = c.scalar_type ∧
      (a.scalar_type = .Half ∨ a.scalar_type = .BFloat16 ∨ a.scalar_type = .Float) ∧
      GetModeVal weightFormatMap fmt "ND" "format_mode" = .ok 0 ∧
      ∃ a0 a1 b0 b1, a.size 0 = .ok a0 ∧ a.size 1 = .ok a1 ∧ b.size 1 = .ok b1 ∧
        b.size 0 = .ok b0 ∧ b0 = toInt32 a1) := by
  by_cases hty : a.scalar_type = b.scalar_type ∧ b.scalar_type = c.scalar_type
  swap
  · have hty2 : ¬ (a.scalar_type = b.scalar_type ∧ b.scalar_type = c2.scalar_type) := by
      rw [← h]; exact hty
    exact Or.inl ⟨.TypeMismatch,
      by unfold catlass_matmul_basic; simp only [hty, not_false_eq_true, if_true],
      by unfold catlass_matmul_basic; simp only [hty2, not_false_eq_true, if_true]⟩
  obtain ⟨hab, hbc⟩ := hty
  have hbc2 : b.scalar_type = c2.scalar_type := hbc.trans h
  by_cases hs : c.scalar_type = .BFloat16 ∨ c.scalar_type = .Half ∨ c.scalar_type = .Float
  swap
  · have hs2 : ¬ (c2.scalar_type = .BFloat16 ∨ c2.scalar_type = .Half ∨
        c2.scalar_type = .Float) := by
      rw [← h]; exact hs
    exact Or.inl ⟨.UnsupportedType,
      by unfold catlass_matmul_basic; simp [hab, hbc, hs],
      by unfold catlass_matmul_basic; simp [hab, hbc2, hs2]⟩
  have hs2 : c2.scalar_type = .BFloat16 ∨ c2.scalar_type = .Half ∨ c2.scalar_type = .Float := by
    rw [← h]; exact hs
  cases hm : GetModeVal weightFormatMap fmt "ND" "format_mode" with
  | error e =>
    exact Or.inl ⟨e,
      by unfold catlass_matmul_basic; simp [hab, hbc, hs, hm],
      by unfold catlass_matmul_basic; simp [hab, hbc2, hs2, hm]⟩
  | ok v =>
    by_cases hv : v = (WEIGHT_ND : Int)
    swap
    · exact Or.inl ⟨.UnsupportedWeightFormat,
        by unfold catlass_matmul_basic; simp [hab, hbc, hs, hm, hv],
        by unfold catlass_matmul_basic; simp [hab, hbc2, hs2, hm, hv]⟩
    cases ha0 : a.size 0 with
    | error e =>
      exact Or.inl ⟨e,
        by unfold catlass_matmul_basic; simp [hab, hbc, hs, hm, hv, ha0],
        by unfold catlass_matmul_basic; simp [hab, hbc2, hs2, hm, hv, ha0]⟩
    | ok a0 =>
      cases ha1 : a.size 1 with
      | error e =>
        exact Or.inl ⟨e,
          by unfold catlass_matmul_basic; simp [hab, hbc, hs, hm, hv, ha0, ha1],
          by unfold catlass_matmul_basic; simp [hab, hbc2, hs2, hm, hv, ha0, ha1]⟩
      | ok a1 =>
        cases hb1 : b.size 1 with
        | error e =>
          exact Or.inl ⟨e,
            by unfold catlass_matmul_basic; simp [hab, hbc, hs, hm, hv, ha0, ha1, hb1],
            by unfold catlass_matmul_basic; simp [hab, hbc2, hs2, hm, hv, ha0, ha1, hb1]⟩
        | ok b1 =>
          cases hb0 : b.size 0 with
          | error e =>
            exact Or.inl ⟨e,
              by unfold catlass_matmul_basic; simp [hab, hbc, hs, hm, hv, ha0, ha1, hb1, hb0],
              by unfold catlass_matmul_basic
                 simp [hab, hbc2, hs2, hm, hv, ha0, ha1, hb1, hb0]⟩
          | ok b0 =>
            by_cases hk : b0 = toInt32 a1
            · refine Or.inr ⟨hab, hbc, ?_, ?_, a0, a1, b0, b1, rfl, rfl, rfl, rfl, hk⟩
              · rw [hab, hbc]; tauto
              · rw [hv]; rfl
            · exact Or.inl ⟨.ShapeMismatch,
                by unfold catlass_matmul_basic
                   simp [hab, hbc, hs, hm, hv, ha0, ha1, hb1, hb0, hk],
                by unfold catlass_matmul_basic
                   simp [hab, hbc2, hs2, hm, hv, ha0, ha1, hb1, hb0, hk]⟩

/-- C11: for every A, B, format token and every two outputs C and C2 of one
element type, whatever their shapes (and devices) are, the two calls have the
same outcome: both fail with the same error and perform no effect, or both
return without error after the same platform query, allocation, copy and
workspace allocation and one launch with the same blockDim and the same staged
descriptor (m, n, k, weight_format_mode, data_format_mode); only the output
handle passed to the kernel differs.  The shape of C is not read. -/
theorem outcome_depends_on_output_type_only (env : Env) (a b c c2 : Tensor)
    (fmt : Option String) (tr : Trace) (h : c.scalar_type = c2.scalar_type) :
    (catlass_matmul_basic env a b c fmt tr).1 = (catlass_matmul_basic env a b c2 fmt tr).1 ∧
    ((∃ e, catlass_matmul_basic env a b c fmt tr = (.error e, tr) ∧
        catlass_matmul_basic env a b c2 fmt tr = (.error e, tr)) ∨
     (∃ (blockDim : Int) (ws : Workspace) (tiling : TilingBuffer),
        catlass_matmul_basic env a b c fmt tr
          = (.ok (), tr ++ [Effect.platformQuery, Effect.hostAlloc tiling.size,
                            Effect.hostToDevice tiling, Effect.workspaceAlloc ws,
                            Effect.kernelLaunch blockDim a b c ws tiling]) ∧
        catlass_matmul_basic env a b c2 fmt tr
          = (.ok (), tr ++ [Effect.platformQuery, Effect.hostAlloc tiling.size,
                            Effect.hostToDevice tiling, Effect.workspaceAlloc ws,
                            Effect.kernelLaunch blockDim a b c2 ws tiling]))) := by
  rcases catlass_matmul_basic_error_same_type env a b c c2 fmt tr h with ⟨e, he, he2⟩ | hv
  · exact ⟨by rw [he, he2], Or.inl ⟨e, he, he2⟩⟩
  · obtain ⟨hab, hbc, hs, hmode, a0, a1, b0, b1, ha0, ha1, hb1, hb0, hk⟩ := hv
    have hrun := catlass_matmul_basic_launch env a b c fmt tr a0 a1 b0 b1 hab hbc hs hmode
      ha0 ha1 hb1 hb0 hk
    have hrun2 := catlass_matmul_basic_launch env a b c2 fmt tr a0 a1 b0 b1 hab (hbc.trans h)
      hs hmode ha0 ha1 hb1 hb0 hk
    refine ⟨by rw [hrun, hrun2], Or.inr ⟨toUInt32 (env.coreNumAiv : Int),
      { bytes := 1, device := a.device },
      { size := tiling_size env.sizeofTilingData,
        data := { m := toInt32 a0, n := toInt32 b1, k := toInt32 a1,
                  weight_format_mode := 0,
                  data_format_mode := dTypeMapIndex env a.scalar_type } }, hrun, hrun2⟩⟩

/-- C11 at FP16 operands A 2×3 and B 3×4: an output of shape 2×4 on the device
and an output of shape 7×7×7 on the host both lead to a launch. -/
theorem outcome_depends_on_output_type_only_witness :
    (catlass_matmul_basic sampleEnv (mkTensor .Half [2, 3]) (mkTensor .Half [3, 4])
        (mkTensor .Half [2, 4]) none []).1
      = (catlass_matmul_basic sampleEnv (mkTensor .Half [2, 3]) (mkTensor .Half [3, 4])
          { scalar_type := .Half, sizes := [7, 7, 7], device := .cpu } none []).1 ∧
    (catlass_matmul_basic sampleEnv (mkTensor .Half [2, 3]) (mkTensor .Half [3, 4])
        { scalar_type := .Half, sizes := [7, 7, 7], device := .cpu } none []).1 = .ok () :=
  ⟨(outcome_depends_on_output_type_only sampleEnv (mkTensor .Half [2, 3])
      (mkTensor .Half [3, 4]) (mkTensor .Half [2, 4])
      { scalar_type := .Half, sizes := [7, 7, 7], device := .cpu } none [] rfl).1, rfl⟩

end npu_kernel
end sglang
